import Mathlib

/-!
Shallow embedding of the jpyc-map-app core: the haversine distance and the
nearby-shops filter of `src/components/ShopsTab.tsx`, and the two three-step
registration wizards of `src/components/ShopRegistrationForm.tsx` and
`src/components/OnlineMerchantRegistrationForm.tsx`.

Numbers that the source holds as JS floats are modelled as real numbers;
JS arrays as lists; absent object properties (`null` / `undefined`) as
`Option`.  The stable JS `Array.prototype.sort` with an ascending numeric
comparator is modelled by `List.mergeSort`, which is a stable merge sort.
-/

namespace JpycMapApp

/-- Coordinate pair, from `src/types/index.ts` (`Location`). -/
structure Location where
  lat : ℝ
  lng : ℝ

/-- Shop listing, from `src/types/index.ts` (`Shop`).  The `distance` field
models the optional `distance` property that `ShopsTab` adds with the object
spread `{...shop, distance}`; fetched shops carry `none` there. -/
structure Shop where
  id : String
  name : String
  address : String
  lat : ℝ
  lng : ℝ
  jpyc_networks : Option (List String)
  payment_methods : Option (List String)
  url : Option String
  tags : Option (List String)
  status : String
  created_by : Option String
  upvotes : Nat
  downvotes : Nat
  distance : Option ℝ := none

noncomputable section

/-- Model of JS `Math.atan2 y x`. -/
def atan2 (y x : ℝ) : ℝ :=
  if 0 < x then Real.arctan (y / x)
  else if x < 0 then
    (if 0 ≤ y then Real.arctan (y / x) + Real.pi else Real.arctan (y / x) - Real.pi)
  else
    (if 0 < y then Real.pi / 2 else if y < 0 then -(Real.pi / 2) else 0)

/-- `calculateDistance` of `ShopsTab.tsx` (lines 32-44): haversine distance in
kilometres with Earth radius 6371 km. -/
def calculateDistance (lat1 lng1 lat2 lng2 : ℝ) : ℝ :=
  let R : ℝ := 6371
  let dLat := (lat2 - lat1) * Real.pi / 180
  let dLng := (lng2 - lng1) * Real.pi / 180
  let a := Real.sin (dLat / 2) * Real.sin (dLat / 2) +
    Real.cos (lat1 * Real.pi / 180) * Real.cos (lat2 * Real.pi / 180) *
      Real.sin (dLng / 2) * Real.sin (dLng / 2)
  let c := 2 * atan2 (Real.sqrt a) (Real.sqrt (1 - a))
  R * c

/-- The `.map` step of `nearbyShops`: the spread `{...shop, distance: calculateDistance(...)}`. -/
def annotate (loc : Location) (shop : Shop) : Shop :=
  { shop with distance := some (calculateDistance loc.lat loc.lng shop.lat shop.lng) }

/-- The `.filter` predicate `shop.distance <= searchRadius`.  In JS a
comparison against an absent property is false; after the map step the
property is always present. -/
def distLe (s : Shop) (r : ℝ) : Bool :=
  match s.distance with
  | some d => decide (d ≤ r)
  | none => false

/-- The numeric value the `.sort` comparator `a.distance - b.distance` reads
(always present after the map step). -/
def distOf (s : Shop) : ℝ := s.distance.getD 0

/-- `nearbyShops` of `ShopsTab.tsx` (lines 126-136): with no user location the
shop list is returned unchanged; otherwise every shop is annotated with its
distance, shops beyond the radius are dropped, and the rest are sorted
ascending by distance (stably, by `List.mergeSort`). -/
def nearbyShops (shops : List Shop) (userLocation : Option Location) (searchRadius : ℝ) :
    List Shop :=
  match userLocation with
  | none => shops
  | some loc =>
      (((shops.map (annotate loc)).filter (fun s => distLe s searchRadius)).mergeSort
        (fun a b => decide (distOf a ≤ distOf b)))

end

/-- Outcome of the external `supabase.insert` call (resolves or rejects). -/
inductive InsertOutcome
  | ok
  | fail

/-- Model of the JS `String.prototype.trim()` the forms call on their text
fields: strip leading and trailing whitespace characters.  Written over the
character list so that it reduces by evaluation. -/
def jsTrim (s : String) : String :=
  ⟨((s.data.dropWhile Char.isWhitespace).reverse.dropWhile Char.isWhitespace).reverse⟩

namespace ShopRegistrationForm

/-- `ShopFormData` of `ShopRegistrationForm.tsx` (lines 63-79). -/
structure FormData where
  name : String
  address : String
  category : String
  lat : ℝ
  lng : ℝ
  jpycUseCases : List String
  jpycUseCaseOther : String
  networks : List String
  networkOther : String
  paymentMethod : String
  url : String
  twitter : String
  note : String

/-- `initialFormData` of `ShopRegistrationForm.tsx` (lines 81-95). -/
def initialFormData : FormData :=
  { name := "", address := "", category := "", lat := 35.6812, lng := 139.7671,
    jpycUseCases := [], jpycUseCaseOther := "", networks := [], networkOther := "",
    paymentMethod := "", url := "", twitter := "", note := "" }

/-- The wizard state held by the component: `step`, `formData`, `confirmed`,
`submitting`, `submitted`, `error` (lines 99-104). -/
structure Wizard where
  step : Nat
  formData : FormData
  confirmed : Bool
  submitting : Bool
  submitted : Bool
  error : Option String

/-- The state the component mounts in. -/
def initialWizard : Wizard :=
  { step := 1, formData := initialFormData, confirmed := false,
    submitting := false, submitted := false, error := none }

/-- `validateStep1` (lines 163-178): `none` means the step passed; `some msg`
is the single error message set, first failing field wins. -/
def validateStep1 (f : FormData) : Option String :=
  if jsTrim f.name = "" then some "店舗名を入力してください"
  else if jsTrim f.address = "" then some "住所を入力してください"
  else if f.category = "" then some "カテゴリを選択してください"
  else none

/-- `validateStep2` (lines 180-195). -/
def validateStep2 (f : FormData) : Option String :=
  if f.jpycUseCases = [] ∧ jsTrim f.jpycUseCaseOther = "" then
    some "JPYCの使い方を1つ以上選択してください"
  else if f.networks = [] ∧ jsTrim f.networkOther = "" then
    some "対応ネットワークを1つ以上選択してください"
  else if f.paymentMethod = "" then some "支払い方法を選択してください"
  else none

/-- `nextStep` (lines 197-203): advance only when the current step validates;
the validator writes the error slot either way. -/
def nextStep (w : Wizard) : Wizard :=
  if w.step = 1 then
    match validateStep1 w.formData with
    | none => { w with step := 2, error := none }
    | some e => { w with error := some e }
  else if w.step = 2 then
    match validateStep2 w.formData with
    | none => { w with step := 3, error := none }
    | some e => { w with error := some e }
  else w

/-- `prevStep` (lines 205-208): clear the error and decrement the step. -/
def prevStep (w : Wizard) : Wizard :=
  { w with error := none, step := w.step - 1 }

/-- The row `handleSubmit` passes to `supabase.from(shops).insert` (lines
243-256). -/
structure Row where
  name : String
  address : String
  lat : ℝ
  lng : ℝ
  jpyc_networks : List String
  payment_methods : List String
  url : Option String
  tags : List String
  status : String
  created_by : String
  upvotes : Nat
  downvotes : Nat

/-- The local `jpycUseCases` array `handleSubmit` computes (lines 231-235):
the selected use cases plus the non-blank trimmed free text.  The source
computes this array but does not put it in the inserted row. -/
def shapedUseCases (f : FormData) : List String :=
  f.jpycUseCases ++ (if jsTrim f.jpycUseCaseOther ≠ "" then [jsTrim f.jpycUseCaseOther] else [])

/-- The local `networks` array `handleSubmit` computes (lines 237-241): drop
the sentinel, then push the trimmed free text when the sentinel was selected
and the free text is non-blank. -/
def shapedNetworks (f : FormData) : List String :=
  f.networks.filter (fun n => n != "その他") ++
    (if "その他" ∈ f.networks ∧ jsTrim f.networkOther ≠ "" then [jsTrim f.networkOther] else [])

/-- The inserted row (lines 227-256). -/
def buildRow (f : FormData) (uid : String) : Row :=
  { name := jsTrim f.name, address := jsTrim f.address, lat := f.lat, lng := f.lng,
    jpyc_networks := shapedNetworks f, payment_methods := [f.paymentMethod],
    url := if jsTrim f.url = "" then none else some (jsTrim f.url),
    tags := [f.category], status := "pending", created_by := uid,
    upvotes := 0, downvotes := 0 }

/-- `handleSubmit` (lines 210-267), collapsed to the state once the async call
has settled, paired with the list of insert calls performed.  The three
precondition guards return before any network call; otherwise one insert
happens and `submitted` / `error` are set from its outcome (`setSubmitting`
runs in the `finally`, so `submitting` ends false). -/
def handleSubmit (w : Wizard) (user : Option String) (supabaseConfigured : Bool)
    (outcome : InsertOutcome) : Wizard × List Row :=
  if w.confirmed = false then ({ w with error := some "確認チェックを入れてください" }, [])
  else
    match user with
    | none => ({ w with error := some "ログインが必要です" }, [])
    | some uid =>
      if supabaseConfigured = false then
        ({ w with error := some "Supabaseが設定されていません" }, [])
      else
        let row := buildRow w.formData uid
        match outcome with
        | .ok => ({ w with submitting := false, error := none, submitted := true }, [row])
        | .fail =>
            ({ w with submitting := false,
                      error := some "登録に失敗しました。もう一度お試しください。" }, [row])

/-- `resetForm` (lines 269-275): back to the initial draft and step 1
(`submitting` is not touched there). -/
def resetForm (w : Wizard) : Wizard :=
  { formData := initialFormData, step := 1, confirmed := false,
    submitted := false, error := none, submitting := w.submitting }

/-- One user-visible wizard operation, guarded by when its control is rendered
in the JSX: the form is shown only while not submitted; the back button only
when `step > 1` (line 649), the next button only when `step < 3`, the submit
button only at step 3 and not while submitting (lines 660-675); the reset
button only on the submitted screen (line 291).  `edit` covers the input,
checkbox, map-click and confirm handlers, which change only the draft and the
confirmation flag. -/
inductive StepRel : Wizard → Wizard → Prop
  | next (w : Wizard) (h : w.submitted = false) (hs : w.step < 3) :
      StepRel w (nextStep w)
  | prev (w : Wizard) (h : w.submitted = false) (hs : 1 < w.step) :
      StepRel w (prevStep w)
  | submit (w : Wizard) (user : Option String) (sup : Bool) (o : InsertOutcome)
      (h : w.submitted = false) (hs : ¬ w.step < 3) (hb : w.submitting = false) :
      StepRel w (handleSubmit w user sup o).1
  | edit (w : Wizard) (f : FormData) (c : Bool) (h : w.submitted = false) :
      StepRel w { w with formData := f, confirmed := c }
  | reset (w : Wizard) (h : w.submitted = true) :
      StepRel w (resetForm w)

/-- States reachable from the mount state through the rendered controls. -/
inductive Reachable : Wizard → Prop
  | init : Reachable initialWizard
  | step {w w' : Wizard} : Reachable w → StepRel w w' → Reachable w'

end ShopRegistrationForm

namespace OnlineMerchantRegistrationForm

/-- `MerchantFormData` of `OnlineMerchantRegistrationForm.tsx` (lines 31-46). -/
structure FormData where
  name : String
  url : String
  description : String
  serviceType : String
  serviceTypeOther : String
  country : String
  jpycUseCase : String
  jpycUseCaseOther : String
  platforms : List String
  platformOther : String
  tags : List String
  customTag : String

/-- `initialFormData` (lines 48-61). -/
def initialFormData : FormData :=
  { name := "", url := "", description := "", serviceType := "", serviceTypeOther := "",
    country := "", jpycUseCase := "", jpycUseCaseOther := "", platforms := [],
    platformOther := "", tags := [], customTag := "" }

/-- The wizard state held by the component (lines 65-70). -/
structure Wizard where
  step : Nat
  formData : FormData
  confirmed : Bool
  submitting : Bool
  submitted : Bool
  error : Option String

/-- The state the component mounts in. -/
def initialWizard : Wizard :=
  { step := 1, formData := initialFormData, confirmed := false,
    submitting := false, submitted := false, error := none }

/-- `validateStep1` (lines 107-122). -/
def validateStep1 (f : FormData) : Option String :=
  if jsTrim f.name = "" then some "サービス名を入力してください"
  else if jsTrim f.url = "" then some "URLを入力してください"
  else if f.serviceType = "" then some "サービス種別を選択してください"
  else none

/-- `validateStep2` (lines 124-136): the use case resolves to the free text
when the sentinel is selected. -/
def validateStep2 (f : FormData) : Option String :=
  let useCase := if f.jpycUseCase = "その他" then f.jpycUseCaseOther else f.jpycUseCase
  if jsTrim useCase = "" then some "JPYCの使い道を選択または入力してください"
  else if f.platforms = [] then some "プラットフォームを1つ以上選択してください"
  else none

/-- `nextStep` (lines 138-144). -/
def nextStep (w : Wizard) : Wizard :=
  if w.step = 1 then
    match validateStep1 w.formData with
    | none => { w with step := 2, error := none }
    | some e => { w with error := some e }
  else if w.step = 2 then
    match validateStep2 w.formData with
    | none => { w with step := 3, error := none }
    | some e => { w with error := some e }
  else w

/-- `prevStep` (lines 146-149). -/
def prevStep (w : Wizard) : Wizard :=
  { w with error := none, step := w.step - 1 }

/-- The row `handleSubmit` passes to `supabase.from(online_merchants).insert`
(lines 188-199). -/
structure Row where
  name : String
  url : String
  description : Option String
  service_type : String
  country : Option String
  jpyc_use_case : String
  platforms : List String
  tags : Option (List String)
  status : String
  created_by : String

/-- The `jpycUseCase` local of `handleSubmit` (lines 169-173). -/
def shapedUseCase (f : FormData) : String :=
  if f.jpycUseCase = "その他" then jsTrim f.jpycUseCaseOther else f.jpycUseCase

/-- The `platforms` local of `handleSubmit` (lines 175-179): drop the sentinel,
then push the trimmed free text when the sentinel was selected and the free
text is non-blank. -/
def shapedPlatforms (f : FormData) : List String :=
  f.platforms.filter (fun p => p != "その他") ++
    (if "その他" ∈ f.platforms ∧ jsTrim f.platformOther ≠ "" then [jsTrim f.platformOther] else [])

/-- The `description` local of `handleSubmit` (lines 181-186): when the
service type is the sentinel and its free text is non-blank, a labelled note
is appended to (or replaces an empty) description. -/
def shapedDescription (f : FormData) : String :=
  let d := jsTrim f.description
  if f.serviceType = "その他" ∧ jsTrim f.serviceTypeOther ≠ "" then
    (if d = "" then "【サービス種別補足】" ++ jsTrim f.serviceTypeOther
     else d ++ "\n\n" ++ ("【サービス種別補足】" ++ jsTrim f.serviceTypeOther))
  else d

/-- The inserted row (lines 188-199). -/
def buildRow (f : FormData) (uid : String) : Row :=
  { name := jsTrim f.name, url := jsTrim f.url,
    description := if shapedDescription f = "" then none else some (shapedDescription f),
    service_type := f.serviceType,
    country := if jsTrim f.country = "" then none else some (jsTrim f.country),
    jpyc_use_case := shapedUseCase f, platforms := shapedPlatforms f,
    tags := if f.tags.length > 0 then some f.tags else none,
    status := "pending", created_by := uid }

/-- `handleSubmit` (lines 151-210), collapsed to the state once the async call
has settled, paired with the list of insert calls performed. -/
def handleSubmit (w : Wizard) (user : Option String) (supabaseConfigured : Bool)
    (outcome : InsertOutcome) : Wizard × List Row :=
  if w.confirmed = false then ({ w with error := some "確認チェックを入れてください" }, [])
  else
    match user with
    | none => ({ w with error := some "ログインが必要です" }, [])
    | some uid =>
      if supabaseConfigured = false then
        ({ w with error := some "Supabaseが設定されていません" }, [])
      else
        let row := buildRow w.formData uid
        match outcome with
        | .ok => ({ w with submitting := false, error := none, submitted := true }, [row])
        | .fail =>
            ({ w with submitting := false,
                      error := some "登録に失敗しました。もう一度お試しください。" }, [row])

/-- `resetForm` (lines 212-218). -/
def resetForm (w : Wizard) : Wizard :=
  { formData := initialFormData, step := 1, confirmed := false,
    submitted := false, error := none, submitting := w.submitting }

/-- One user-visible wizard operation, guarded by when its control is rendered
in the JSX, exactly as in the shop form; `edit` also covers `addCustomTag` and
`removeTag`, which change only the draft. -/
inductive StepRel : Wizard → Wizard → Prop
  | next (w : Wizard) (h : w.submitted = false) (hs : w.step < 3) :
      StepRel w (nextStep w)
  | prev (w : Wizard) (h : w.submitted = false) (hs : 1 < w.step) :
      StepRel w (prevStep w)
  | submit (w : Wizard) (user : Option String) (sup : Bool) (o : InsertOutcome)
      (h : w.submitted = false) (hs : ¬ w.step < 3) (hb : w.submitting = false) :
      StepRel w (handleSubmit w user sup o).1
  | edit (w : Wizard) (f : FormData) (c : Bool) (h : w.submitted = false) :
      StepRel w { w with formData := f, confirmed := c }
  | reset (w : Wizard) (h : w.submitted = true) :
      StepRel w (resetForm w)

/-- States reachable from the mount state through the rendered controls. -/
inductive Reachable : Wizard → Prop
  | init : Reachable initialWizard
  | step {w w' : Wizard} : Reachable w → StepRel w w' → Reachable w'

end OnlineMerchantRegistrationForm

/-! ## Theorems -/

/-- The haversine intermediate value `a` is symmetric in the two coordinates:
the latitude and longitude differences only change sign, the sines are
squared, and the cosine factors commute. -/
theorem hav_a_comm (lat1 lng1 lat2 lng2 : ℝ) :
    Real.sin ((lat1 - lat2) * Real.pi / 180 / 2) * Real.sin ((lat1 - lat2) * Real.pi / 180 / 2) +
      Real.cos (lat2 * Real.pi / 180) * Real.cos (lat1 * Real.pi / 180) *
        Real.sin ((lng1 - lng2) * Real.pi / 180 / 2) *
        Real.sin ((lng1 - lng2) * Real.pi / 180 / 2) =
    Real.sin ((lat2 - lat1) * Real.pi / 180 / 2) * Real.sin ((lat2 - lat1) * Real.pi / 180 / 2) +
      Real.cos (lat1 * Real.pi / 180) * Real.cos (lat2 * Real.pi / 180) *
        Real.sin ((lng2 - lng1) * Real.pi / 180 / 2) *
        Real.sin ((lng2 - lng1) * Real.pi / 180 / 2) := by
  have h1 : (lat1 - lat2) * Real.pi / 180 / 2 = -((lat2 - lat1) * Real.pi / 180 / 2) := by ring
  have h2 : (lng1 - lng2) * Real.pi / 180 / 2 = -((lng2 - lng1) * Real.pi / 180 / 2) := by ring
  simp only [h1, h2, Real.sin_neg]
  ring

/-- `calculateDistance` is symmetric, exactly, over the reals. -/
theorem calculateDistance_comm (lat1 lng1 lat2 lng2 : ℝ) :
    calculateDistance lat1 lng1 lat2 lng2 = calculateDistance lat2 lng2 lat1 lng1 := by
  simp only [calculateDistance]
  rw [hav_a_comm lat2 lng2 lat1 lng1]

/-- `calculateDistance` of a point to itself is exactly zero over the reals. -/
theorem calculateDistance_self (lat lng : ℝ) : calculateDistance lat lng lat lng = 0 := by
  simp only [calculateDistance, sub_self, zero_mul, zero_div, Real.sin_zero, mul_zero,
    zero_add, add_zero, Real.sqrt_zero, sub_zero, Real.sqrt_one]
  simp [atan2, Real.arctan_zero]

/-- C8: for all coordinates A and B, `calculateDistance` (the haversine
great-circle distance with Earth radius 6371 km, modelled over the reals) is
symmetric and zero on the diagonal, within the 1e-6 km tolerance. -/
theorem distance_symm_self_tolerance (lat1 lng1 lat2 lng2 : ℝ) :
    |calculateDistance lat1 lng1 lat2 lng2 - calculateDistance lat2 lng2 lat1 lng1| ≤
      1 / 1000000 ∧
    |calculateDistance lat1 lng1 lat1 lng1| ≤ 1 / 1000000 := by
  constructor
  · rw [calculateDistance_comm lat1 lng1 lat2 lng2, sub_self, abs_zero]
    norm_num
  · rw [calculateDistance_self, abs_zero]
    norm_num

/-- C9: while no user location has been stored, `nearbyShops` is the fetched
shop list unchanged, for every shop list and radius — no distance annotation,
no radius filter, no sort. -/
theorem nearbyShops_without_location (shops : List Shop) (searchRadius : ℝ) :
    nearbyShops shops none searchRadius = shops := rfl

/-- `handleSubmit` never changes the step of the shop wizard. -/
theorem shop_handleSubmit_step (w : ShopRegistrationForm.Wizard) (u : Option String)
    (s : Bool) (o : InsertOutcome) :
    (ShopRegistrationForm.handleSubmit w u s o).1.step = w.step := by
  cases hc : w.confirmed <;> cases u <;> cases s <;> cases o <;>
    simp [ShopRegistrationForm.handleSubmit, hc]

/-- `nextStep` keeps the shop wizard step, or advances it by one when it was
1 or 2 and validation passed. -/
theorem shop_nextStep_inv (w : ShopRegistrationForm.Wizard)
    (h1 : 1 ≤ w.step) (h2 : w.step ≤ 3) :
    1 ≤ (ShopRegistrationForm.nextStep w).step ∧ (ShopRegistrationForm.nextStep w).step ≤ 3 := by
  unfold ShopRegistrationForm.nextStep
  split
  · cases ShopRegistrationForm.validateStep1 w.formData with
    | none => exact ⟨Nat.le_succ 1, Nat.le_succ 2⟩
    | some e => exact ⟨h1, h2⟩
  · split
    · cases ShopRegistrationForm.validateStep2 w.formData with
      | none => exact ⟨Nat.le.step (Nat.le_succ 1), Nat.le_refl 3⟩
      | some e => exact ⟨h1, h2⟩
    · exact ⟨h1, h2⟩

/-- `handleSubmit` never changes the step of the merchant wizard. -/
theorem merchant_handleSubmit_step (w : OnlineMerchantRegistrationForm.Wizard)
    (u : Option String) (s : Bool) (o : InsertOutcome) :
    (OnlineMerchantRegistrationForm.handleSubmit w u s o).1.step = w.step := by
  cases hc : w.confirmed <;> cases u <;> cases s <;> cases o <;>
    simp [OnlineMerchantRegistrationForm.handleSubmit, hc]

/-- `nextStep` keeps the merchant wizard step, or advances it by one when it
was 1 or 2 and validation passed. -/
theorem merchant_nextStep_inv (w : OnlineMerchantRegistrationForm.Wizard)
    (h1 : 1 ≤ w.step) (h2 : w.step ≤ 3) :
    1 ≤ (OnlineMerchantRegistrationForm.nextStep w).step ∧
      (OnlineMerchantRegistrationForm.nextStep w).step ≤ 3 := by
  unfold OnlineMerchantRegistrationForm.nextStep
  split
  · cases OnlineMerchantRegistrationForm.validateStep1 w.formData with
    | none => exact ⟨Nat.le_succ 1, Nat.le_succ 2⟩
    | some e => exact ⟨h1, h2⟩
  · split
    · cases OnlineMerchantRegistrationForm.validateStep2 w.formData with
      | none => exact ⟨Nat.le.step (Nat.le_succ 1), Nat.le_refl 3⟩
      | some e => exact ⟨h1, h2⟩
    · exact ⟨h1, h2⟩

/-- C7: every wizard operation available in the rendered UI — advance,
retreat, submit, reset, and the draft edits — keeps the step index in
{1,2,3}, for every state reachable from the initial step-1 state, in both the
shop wizard and the merchant wizard. -/
theorem wizard_step_in_range :
    (∀ w, ShopRegistrationForm.Reachable w → 1 ≤ w.step ∧ w.step ≤ 3) ∧
    (∀ w, OnlineMerchantRegistrationForm.Reachable w → 1 ≤ w.step ∧ w.step ≤ 3) := by
  constructor
  · intro w h
    induction h with
    | init => exact ⟨by decide, by decide⟩
    | @step w w' hr hs ih =>
      cases hs with
      | next h hlt => exact shop_nextStep_inv w ih.1 ih.2
      | prev h hgt =>
        have e : (ShopRegistrationForm.prevStep w).step = w.step - 1 := rfl
        rw [e]
        omega
      | submit user sup o h hlt hb =>
        rw [shop_handleSubmit_step]
        exact ih
      | edit f c h => exact ih
      | reset h =>
        have e : (ShopRegistrationForm.resetForm w).step = 1 := rfl
        rw [e]
        exact ⟨le_refl 1, by norm_num⟩
  · intro w h
    induction h with
    | init => exact ⟨by decide, by decide⟩
    | @step w w' hr hs ih =>
      cases hs with
      | next h hlt => exact merchant_nextStep_inv w ih.1 ih.2
      | prev h hgt =>
        have e : (OnlineMerchantRegistrationForm.prevStep w).step = w.step - 1 := rfl
        rw [e]
        omega
      | submit user sup o h hlt hb =>
        rw [merchant_handleSubmit_step]
        exact ih
      | edit f c h => exact ih
      | reset h =>
        have e : (OnlineMerchantRegistrationForm.resetForm w).step = 1 := rfl
        rw [e]
        exact ⟨le_refl 1, by norm_num⟩

/-- C2: at the confirmation step, calling submit with the confirmation
checkbox false, or with no authenticated user, fails fast in both wizards: no
insert call is made, the step stays 3, `submitted` stays false, the draft is
unchanged, and a non-null error message is set. -/
theorem submit_precondition_failfast :
    (∀ (w : ShopRegistrationForm.Wizard) (user : Option String) (sup : Bool)
        (o : InsertOutcome), w.step = 3 → w.submitted = false →
        (w.confirmed = false ∨ user = none) →
        (ShopRegistrationForm.handleSubmit w user sup o).2 = [] ∧
        (ShopRegistrationForm.handleSubmit w user sup o).1.step = 3 ∧
        (ShopRegistrationForm.handleSubmit w user sup o).1.submitted = false ∧
        (ShopRegistrationForm.handleSubmit w user sup o).1.formData = w.formData ∧
        (ShopRegistrationForm.handleSubmit w user sup o).1.error ≠ none) ∧
    (∀ (w : OnlineMerchantRegistrationForm.Wizard) (user : Option String) (sup : Bool)
        (o : InsertOutcome), w.step = 3 → w.submitted = false →
        (w.confirmed = false ∨ user = none) →
        (OnlineMerchantRegistrationForm.handleSubmit w user sup o).2 = [] ∧
        (OnlineMerchantRegistrationForm.handleSubmit w user sup o).1.step = 3 ∧
        (OnlineMerchantRegistrationForm.handleSubmit w user sup o).1.submitted = false ∧
        (OnlineMerchantRegistrationForm.handleSubmit w user sup o).1.formData = w.formData ∧
        (OnlineMerchantRegistrationForm.handleSubmit w user sup o).1.error ≠ none) := by
  constructor
  · intro w user sup o hstep hsub hpre
    rcases hpre with hc | hu
    · simp [ShopRegistrationForm.handleSubmit, hc, hstep, hsub]
    · subst hu
      cases hc : w.confirmed <;>
        simp [ShopRegistrationForm.handleSubmit, hc, hstep, hsub]
  · intro w user sup o hstep hsub hpre
    rcases hpre with hc | hu
    · simp [OnlineMerchantRegistrationForm.handleSubmit, hc, hstep, hsub]
    · subst hu
      cases hc : w.confirmed <;>
        simp [OnlineMerchantRegistrationForm.handleSubmit, hc, hstep, hsub]

/-- Closed instance of the C2 theorem: the shop wizard at step 3 with no
signed-in user. -/
theorem submit_precondition_failfast_witness :
    (ShopRegistrationForm.handleSubmit { ShopRegistrationForm.initialWizard with step := 3 }
        none true .ok).2 = [] ∧
    (ShopRegistrationForm.handleSubmit { ShopRegistrationForm.initialWizard with step := 3 }
        none true .ok).1.step = 3 ∧
    (ShopRegistrationForm.handleSubmit { ShopRegistrationForm.initialWizard with step := 3 }
        none true .ok).1.submitted = false ∧
    (ShopRegistrationForm.handleSubmit { ShopRegistrationForm.initialWizard with step := 3 }
        none true .ok).1.formData =
      ({ ShopRegistrationForm.initialWizard with step := 3 } :
        ShopRegistrationForm.Wizard).formData ∧
    (ShopRegistrationForm.handleSubmit { ShopRegistrationForm.initialWizard with step := 3 }
        none true .ok).1.error ≠ none :=
  submit_precondition_failfast.1 _ none true .ok rfl rfl (Or.inr rfl)

/-- C3: when the external insert call rejects on a valid confirmed draft,
both wizards return to the confirmation step: the step stays 3, `submitted`
stays false, every draft field is unchanged, and the generic user-facing
failure message is set. -/
theorem submit_failure_preserves_draft :
    (∀ (w : ShopRegistrationForm.Wizard) (uid : String),
        w.step = 3 → w.submitted = false → w.confirmed = true →
        (ShopRegistrationForm.handleSubmit w (some uid) true .fail).1.step = 3 ∧
        (ShopRegistrationForm.handleSubmit w (some uid) true .fail).1.submitted = false ∧
        (ShopRegistrationForm.handleSubmit w (some uid) true .fail).1.formData = w.formData ∧
        (ShopRegistrationForm.handleSubmit w (some uid) true .fail).1.error =
          some "登録に失敗しました。もう一度お試しください。") ∧
    (∀ (w : OnlineMerchantRegistrationForm.Wizard) (uid : String),
        w.step = 3 → w.submitted = false → w.confirmed = true →
        (OnlineMerchantRegistrationForm.handleSubmit w (some uid) true .fail).1.step = 3 ∧
        (OnlineMerchantRegistrationForm.handleSubmit w (some uid) true .fail).1.submitted =
          false ∧
        (OnlineMerchantRegistrationForm.handleSubmit w (some uid) true .fail).1.formData =
          w.formData ∧
        (OnlineMerchantRegistrationForm.handleSubmit w (some uid) true .fail).1.error =
          some "登録に失敗しました。もう一度お試しください。") := by
  constructor
  · intro w uid hstep hsub hc
    simp [ShopRegistrationForm.handleSubmit, hc, hstep, hsub]
  · intro w uid hstep hsub hc
    simp [OnlineMerchantRegistrationForm.handleSubmit, hc, hstep, hsub]

/-- Closed instance of the C3 theorem: a confirmed step-3 shop wizard whose
insert call rejects. -/
theorem submit_failure_preserves_draft_witness :
    (ShopRegistrationForm.handleSubmit
        { ShopRegistrationForm.initialWizard with step := 3, confirmed := true }
        (some "user-1") true .fail).1.step = 3 ∧
    (ShopRegistrationForm.handleSubmit
        { ShopRegistrationForm.initialWizard with step := 3, confirmed := true }
        (some "user-1") true .fail).1.submitted = false ∧
    (ShopRegistrationForm.handleSubmit
        { ShopRegistrationForm.initialWizard with step := 3, confirmed := true }
        (some "user-1") true .fail).1.formData =
      ({ ShopRegistrationForm.initialWizard with step := 3, confirmed := true } :
        ShopRegistrationForm.Wizard).formData ∧
    (ShopRegistrationForm.handleSubmit
        { ShopRegistrationForm.initialWizard with step := 3, confirmed := true }
        (some "user-1") true .fail).1.error =
      some "登録に失敗しました。もう一度お試しください。" :=
  submit_failure_preserves_draft.1 _ "user-1" rfl rfl rfl

/-- C4: Scenario A — the concrete shop draft with confirmed checkbox and an
authenticated user submits exactly one row, whose tags are the single-element
category list, networks and payment method are wrapped as given, status is
pending, created_by is the caller identity, and both vote counters are 0. -/
theorem scenarioA_submitted_row :
    ((ShopRegistrationForm.handleSubmit
        { step := 3,
          formData := { ShopRegistrationForm.initialFormData with
            name := "Crypto Cafe", address := "Tokyo", category := "カフェ",
            jpycUseCases := ["店頭決済"], networks := ["Polygon"],
            paymentMethod := "QRコード決済" },
          confirmed := true, submitting := false, submitted := false, error := none }
        (some "user-1") true .ok).2.map
      (fun r => (r.tags, r.jpyc_networks, r.payment_methods, r.status, r.created_by,
        r.upvotes, r.downvotes))) =
    [(["カフェ"], ["Polygon"], ["QRコード決済"], "pending", "user-1", 0, 0)] := by
  rfl

/-- C5 counterexample: a confirmed merchant draft whose platforms contain the
sentinel and whose non-blank free-text companion is itself the sentinel
string does submit the literal sentinel in `platforms` — the free text is
pushed verbatim after the filter. -/
theorem platform_sentinel_verbatim_cex :
    (let w : OnlineMerchantRegistrationForm.Wizard :=
      { step := 3,
        formData := { OnlineMerchantRegistrationForm.initialFormData with
          name := "Bot Shop", url := "https://example.com", serviceType := "EC",
          jpycUseCase := "決済", platforms := ["その他"], platformOther := "その他" },
        confirmed := true, submitting := false, submitted := false, error := none }
     w.confirmed = true ∧ "その他" ∈ w.formData.platforms ∧
       jsTrim w.formData.platformOther ≠ "" ∧
       ((OnlineMerchantRegistrationForm.handleSubmit w (some "user-1") true .ok).2.map
          (fun r => r.platforms)) = [["その他"]]) :=
  ⟨rfl, by decide, by decide, rfl⟩

/-- C5 amended: for every confirmed merchant draft whose platforms contain
the sentinel with a non-blank free-text companion that differs from the
sentinel itself, the submitted platforms contain the trimmed free text and
do not contain the literal sentinel. -/
theorem platform_other_replaces_sentinel
    (w : OnlineMerchantRegistrationForm.Wizard) (uid : String) (o : InsertOutcome)
    (hc : w.confirmed = true)
    (hm : "その他" ∈ w.formData.platforms)
    (hne : jsTrim w.formData.platformOther ≠ "")
    (hdiff : jsTrim w.formData.platformOther ≠ "その他") :
    ∃ r, (OnlineMerchantRegistrationForm.handleSubmit w (some uid) true o).2 = [r] ∧
      jsTrim w.formData.platformOther ∈ r.platforms ∧ "その他" ∉ r.platforms := by
  refine ⟨OnlineMerchantRegistrationForm.buildRow w.formData uid, ?_, ?_, ?_⟩
  · cases o <;> simp [OnlineMerchantRegistrationForm.handleSubmit, hc]
  · simp only [OnlineMerchantRegistrationForm.buildRow,
      OnlineMerchantRegistrationForm.shapedPlatforms]
    rw [if_pos ⟨hm, hne⟩]
    exact List.mem_append_right _ (List.mem_singleton_self _)
  · simp only [OnlineMerchantRegistrationForm.buildRow,
      OnlineMerchantRegistrationForm.shapedPlatforms]
    rw [if_pos ⟨hm, hne⟩]
    intro hmem
    rcases List.mem_append.1 hmem with hf | hs
    · have hp := (List.mem_filter.1 hf).2
      simp at hp
    · exact hdiff (List.mem_singleton.1 hs).symm

/-- Closed instance of the amended C5 theorem: Scenario B, platforms
["その他"] with free text "Discord Bot". -/
theorem platform_other_replaces_sentinel_witness :
    (let w : OnlineMerchantRegistrationForm.Wizard :=
      { step := 3,
        formData := { OnlineMerchantRegistrationForm.initialFormData with
          name := "Bot Shop", url := "https://example.com", serviceType := "EC",
          jpycUseCase := "決済", platforms := ["その他"], platformOther := "Discord Bot" },
        confirmed := true, submitting := false, submitted := false, error := none }
     ∃ r, (OnlineMerchantRegistrationForm.handleSubmit w (some "user-1") true .ok).2 = [r] ∧
       jsTrim w.formData.platformOther ∈ r.platforms ∧ "その他" ∉ r.platforms) :=
  platform_other_replaces_sentinel _ "user-1" .ok rfl (by decide) (by decide) (by decide)

/-- C6 counterexample: a confirmed shop draft with a non-blank use-case free
text; the combined use-case list is computed at submit time but equals no
list-valued field of the single submitted row — the shop row carries no
use-case field, so the use-case entries are not in the data submitted. -/
theorem use_case_list_not_submitted_cex :
    (let f : ShopRegistrationForm.FormData :=
       { ShopRegistrationForm.initialFormData with
         name := "Crypto Cafe", address := "Tokyo", category := "カフェ",
         jpycUseCases := ["店頭決済"], jpycUseCaseOther := "限定グッズ",
         networks := ["Polygon", "その他"], networkOther := "Base",
         paymentMethod := "ウォレット送金" }
     let w : ShopRegistrationForm.Wizard :=
       { step := 3, formData := f, confirmed := true,
         submitting := false, submitted := false, error := none }
     ShopRegistrationForm.shapedUseCases f = ["店頭決済", "限定グッズ"] ∧
       ((ShopRegistrationForm.handleSubmit w (some "user-1") true .ok).2.map
          (fun r => (r.jpyc_networks, r.payment_methods, r.tags))) =
         [(["Polygon", "Base"], ["ウォレット送金"], ["カフェ"])] ∧
       (["店頭決済", "限定グッズ"] : List String) ≠ ["Polygon", "Base"] ∧
       (["店頭決済", "限定グッズ"] : List String) ≠ ["ウォレット送金"] ∧
       (["店頭決済", "限定グッズ"] : List String) ≠ ["カフェ"]) :=
  ⟨rfl, rfl, by decide, by decide, by decide⟩

/-- C6 amended: for every confirmed shop draft, the non-blank use-case free
text is appended to the use-case list computed at submit time (which is not a
field of the submitted row), and, when the networks contain the sentinel and
the network free text is non-blank, the submitted row's `jpyc_networks` is
the canonical selections (sentinel dropped) with the trimmed free text
appended. -/
theorem network_other_appended
    (w : ShopRegistrationForm.Wizard) (uid : String) (o : InsertOutcome)
    (hc : w.confirmed = true)
    (hu : jsTrim w.formData.jpycUseCaseOther ≠ "")
    (hm : "その他" ∈ w.formData.networks)
    (hne : jsTrim w.formData.networkOther ≠ "") :
    ShopRegistrationForm.shapedUseCases w.formData =
      w.formData.jpycUseCases ++ [jsTrim w.formData.jpycUseCaseOther] ∧
    ∃ r, (ShopRegistrationForm.handleSubmit w (some uid) true o).2 = [r] ∧
      r.jpyc_networks = w.formData.networks.filter (fun n => n != "その他") ++
        [jsTrim w.formData.networkOther] ∧
      jsTrim w.formData.networkOther ∈ r.jpyc_networks := by
  refine ⟨?_, ShopRegistrationForm.buildRow w.formData uid, ?_, ?_, ?_⟩
  · unfold ShopRegistrationForm.shapedUseCases
    rw [if_pos hu]
  · cases o <;> simp [ShopRegistrationForm.handleSubmit, hc]
  · simp only [ShopRegistrationForm.buildRow, ShopRegistrationForm.shapedNetworks]
    rw [if_pos ⟨hm, hne⟩]
  · simp only [ShopRegistrationForm.buildRow, ShopRegistrationForm.shapedNetworks]
    rw [if_pos ⟨hm, hne⟩]
    exact List.mem_append_right _ (List.mem_singleton_self _)

/-- Closed instance of the amended C6 theorem. -/
theorem network_other_appended_witness :
    (let w : ShopRegistrationForm.Wizard :=
       { step := 3,
         formData := { ShopRegistrationForm.initialFormData with
           name := "Crypto Cafe", address := "Tokyo", category := "カフェ",
           jpycUseCases := ["店頭決済"], jpycUseCaseOther := "限定グッズ",
           networks := ["Polygon", "その他"], networkOther := "Base",
           paymentMethod := "ウォレット送金" },
         confirmed := true, submitting := false, submitted := false, error := none }
     ShopRegistrationForm.shapedUseCases w.formData =
         w.formData.jpycUseCases ++ [jsTrim w.formData.jpycUseCaseOther] ∧
       ∃ r, (ShopRegistrationForm.handleSubmit w (some "user-1") true .ok).2 = [r] ∧
         r.jpyc_networks = w.formData.networks.filter (fun n => n != "その他") ++
           [jsTrim w.formData.networkOther] ∧
         jsTrim w.formData.networkOther ∈ r.jpyc_networks) :=
  network_other_appended _ "user-1" .ok rfl (by decide) (by decide) (by decide)

/-- C10: a shop draft whose networks list is exactly the sentinel with a
blank network free text passes step-2 validation (the list is non-empty; the
other step-2 fields are validly filled), and on submit the inserted row's
`jpyc_networks` is the empty list: the sentinel is filtered out and nothing
is appended in its place. -/
theorem sentinel_only_networks_empty
    (w : ShopRegistrationForm.Wizard) (uid : String) (o : InsertOutcome)
    (hc : w.confirmed = true)
    (hn : w.formData.networks = ["その他"])
    (hno : jsTrim w.formData.networkOther = "")
    (hu : ¬ (w.formData.jpycUseCases = [] ∧ jsTrim w.formData.jpycUseCaseOther = ""))
    (hp : w.formData.paymentMethod ≠ "") :
    ShopRegistrationForm.validateStep2 w.formData = none ∧
    ∃ r, (ShopRegistrationForm.handleSubmit w (some uid) true o).2 = [r] ∧
      r.jpyc_networks = [] := by
  have hn2 : ¬ (w.formData.networks = [] ∧ jsTrim w.formData.networkOther = "") := by
    rw [hn]
    simp
  constructor
  · unfold ShopRegistrationForm.validateStep2
    rw [if_neg hu, if_neg hn2, if_neg hp]
  · refine ⟨ShopRegistrationForm.buildRow w.formData uid, ?_, ?_⟩
    · cases o <;> simp [ShopRegistrationForm.handleSubmit, hc]
    · simp only [ShopRegistrationForm.buildRow, ShopRegistrationForm.shapedNetworks, hn, hno]
      decide

/-- Closed instance of the C10 theorem. -/
theorem sentinel_only_networks_empty_witness :
    (let w : ShopRegistrationForm.Wizard :=
       { step := 3,
         formData := { ShopRegistrationForm.initialFormData with
           name := "Crypto Cafe", address := "Tokyo", category := "カフェ",
           jpycUseCases := ["店頭決済"], networks := ["その他"],
           paymentMethod := "QRコード決済" },
         confirmed := true, submitting := false, submitted := false, error := none }
     ShopRegistrationForm.validateStep2 w.formData = none ∧
       ∃ r, (ShopRegistrationForm.handleSubmit w (some "user-1") true .ok).2 = [r] ∧
         r.jpyc_networks = []) :=
  sentinel_only_networks_empty _ "user-1" .ok rfl rfl (by decide) (by decide) (by decide)

/-- The distance comparator used by the `nearbyShops` sort is transitive. -/
theorem distCmp_trans (a b c : Shop) :
    (fun a b => decide (distOf a ≤ distOf b)) a b →
    (fun a b => decide (distOf a ≤ distOf b)) b c →
    (fun a b => decide (distOf a ≤ distOf b)) a c := by
  simp only [decide_eq_true_eq]
  exact le_trans

/-- The distance comparator used by the `nearbyShops` sort is total. -/
theorem distCmp_total (a b : Shop) :
    ((fun a b => decide (distOf a ≤ distOf b)) a b ||
     (fun a b => decide (distOf a ≤ distOf b)) b a) := by
  simp only [Bool.or_eq_true, decide_eq_true_eq]
  exact le_total _ _

/-- C1: with the user location set, `nearbyShops` returns only input shops
annotated with their haversine distance from the reference coordinate,
retains exactly (as a permutation) the annotated shops whose distance is at
most the radius — the filter predicate on an annotated shop is precisely
`calculateDistance ≤ radius` — and is sorted ascending by distance, with
every tied pair that appears in original (filter) order remaining in that
order in the output. -/
theorem nearbyShops_with_location_spec (shops : List Shop) (loc : Location) (radius : ℝ) :
    (∀ s ∈ nearbyShops shops (some loc) radius, ∃ shop ∈ shops, s = annotate loc shop) ∧
    (∀ shop : Shop, distLe (annotate loc shop) radius =
        decide (calculateDistance loc.lat loc.lng shop.lat shop.lng ≤ radius)) ∧
    (nearbyShops shops (some loc) radius).Perm
      ((shops.map (annotate loc)).filter (fun s => distLe s radius)) ∧
    (nearbyShops shops (some loc) radius).Pairwise (fun a b => distOf a ≤ distOf b) ∧
    (∀ a b : Shop, distOf a = distOf b →
        [a, b].Sublist ((shops.map (annotate loc)).filter (fun s => distLe s radius)) →
        [a, b].Sublist (nearbyShops shops (some loc) radius)) := by
  have hdef : nearbyShops shops (some loc) radius =
      ((shops.map (annotate loc)).filter (fun s => distLe s radius)).mergeSort
        (fun a b => decide (distOf a ≤ distOf b)) := rfl
  refine ⟨?_, ?_, ?_, ?_, ?_⟩
  · intro s hs
    rw [hdef, List.mem_mergeSort] at hs
    rcases List.mem_map.1 (List.mem_filter.1 hs).1 with ⟨shop, hshop, he⟩
    exact ⟨shop, hshop, he.symm⟩
  · intro shop
    rfl
  · rw [hdef]
    exact List.mergeSort_perm _ _
  · rw [hdef]
    exact (List.sorted_mergeSort distCmp_trans distCmp_total _).imp
      (by simp only [decide_eq_true_eq]; exact id)
  · intro a b hd hsub
    rw [hdef]
    refine List.sublist_mergeSort distCmp_trans distCmp_total ?_ hsub
    refine List.pairwise_cons.mpr ⟨?_, List.pairwise_singleton _ _⟩
    intro c hc
    rw [List.mem_singleton] at hc
    subst hc
    simp only [decide_eq_true_eq]
    exact le_of_eq hd

end JpycMapApp
